import Mathlib

/-!
Formal model of the chatbot-backend repository (an Express HTTP service that
validates a chat request, optionally fetches and filters welfare-scheme
records, forwards a prompt to a generative model, and coerces the model's
reply into a JSON envelope).  The repository consists of several
near-duplicate variants; definitions below are named after the variant they
are translated from (`agent.js`, `part000`, `part002`, `part003`, `part005`).
Machine-level JS details are embedded as follows: JS numbers appearing in the
code are natural numbers (ages, percentages, timestamps), JSON numerals are
rationals, JS truthiness is made explicit wherever the source relies on it,
and the two regular expressions the code uses are implemented as executable
scanners with JS leftmost-match semantics.
-/

namespace ChatBot

/-- Model of a JavaScript JSON value, as produced by `JSON.parse`.  Object
fields keep their textual order; duplicate keys are resolved last-wins at
lookup time, as in JS.  A numeral is kept in exact decimal form as an
integer mantissa with a decimal scale (value `mant / 10 ^ scale`), which is
exact for every numeral JSON admits. -/
inductive Json where
  | null : Json
  | bool (b : Bool) : Json
  | num (mant : Int) (scale : Nat) : Json
  | str (s : String) : Json
  | arr (elems : List Json) : Json
  | obj (fields : List (String × Json)) : Json
deriving Repr, BEq

/-- JS property read `j.k` for a parsed value: defined only on objects,
last duplicate key wins. -/
def Json.getField? (j : Json) (k : String) : Option Json :=
  match j with
  | .obj fields => fields.foldl (fun acc p => if p.1 == k then some p.2 else acc) none
  | _ => none

/-- Whether a parsed value is an object carrying field `k`. -/
def Json.hasField (j : Json) (k : String) : Bool :=
  (j.getField? k).isSome

/-- JS truthiness of a JSON value (`null`, `false`, `0`, and `""` are falsy;
every object and array, including empty ones, is truthy). -/
def Json.truthy : Json → Bool
  | .null => false
  | .bool b => b
  | .num mant _ => mant != 0
  | .str s => s != ""
  | .arr _ => true
  | .obj _ => true

/-- JSON insignificant whitespace (space, tab, line feed, carriage return). -/
def isJsonWs (c : Char) : Bool :=
  c == ' ' || c == '\t' || c == '\n' || c == '\r'

/-- Drop leading JSON whitespace. -/
def skipWs : List Char → List Char
  | [] => []
  | c :: cs => if isJsonWs c then skipWs cs else c :: cs

/-- Value of a hexadecimal digit. -/
def hexVal (c : Char) : Option Nat :=
  if '0' ≤ c ∧ c ≤ '9' then some (c.toNat - '0'.toNat)
  else if 'a' ≤ c ∧ c ≤ 'f' then some (c.toNat - 'a'.toNat + 10)
  else if 'A' ≤ c ∧ c ≤ 'F' then some (c.toNat - 'A'.toNat + 10)
  else none

/-- Decode one JSON string escape (the character after a backslash). -/
def parseEscape : List Char → Option (Char × List Char)
  | '"' :: rest => some ('"', rest)
  | '\\' :: rest => some ('\\', rest)
  | '/' :: rest => some ('/', rest)
  | 'b' :: rest => some ('\x08', rest)
  | 'f' :: rest => some ('\x0c', rest)
  | 'n' :: rest => some ('\n', rest)
  | 'r' :: rest => some ('\r', rest)
  | 't' :: rest => some ('\t', rest)
  | 'u' :: a :: b :: c :: d :: rest =>
    match hexVal a, hexVal b, hexVal c, hexVal d with
    | some ha, some hb, some hc, some hd =>
      some (Char.ofNat (((ha * 16 + hb) * 16 + hc) * 16 + hd), rest)
    | _, _, _, _ => none
  | _ => none

/-- Parse the body of a JSON string (after the opening quote) up to and
including the closing quote. -/
def parseStrChars : Nat → List Char → Option (List Char × List Char)
  | 0, _ => none
  | _, [] => none
  | fuel + 1, c :: rest =>
    if c == '"' then some ([], rest)
    else if c == '\\' then
      match parseEscape rest with
      | some (e, rest') =>
        match parseStrChars fuel rest' with
        | some (s, r) => some (e :: s, r)
        | none => none
      | none => none
    else if c.toNat < 0x20 then none
    else
      match parseStrChars fuel rest with
      | some (s, r) => some (c :: s, r)
      | none => none

/-- Take a maximal run of decimal digits. -/
def takeDigits : List Char → List Char × List Char
  | [] => ([], [])
  | c :: cs =>
    if c.isDigit then
      let (ds, rest) := takeDigits cs
      (c :: ds, rest)
    else ([], c :: cs)

/-- Numeric value of a digit string. -/
def digitsToNat (ds : List Char) : Nat :=
  ds.foldl (fun acc c => acc * 10 + (c.toNat - '0'.toNat)) 0

/-- Parse a JSON numeral (`-?(0|[1-9][0-9]*)(.[0-9]+)?([eE][+-]?[0-9]+)?`)
into an exact decimal (mantissa, scale). -/
def parseNum (cs : List Char) : Option ((Int × Nat) × List Char) :=
  let (neg, cs1) :=
    match cs with
    | '-' :: rest => (true, rest)
    | _ => (false, cs)
  let (intDs, cs2) := takeDigits cs1
  match intDs with
  | [] => none
  | d :: ds =>
    if d == '0' ∧ ds ≠ [] then none
    else
      let (fracDs, cs3) :=
        match cs2 with
        | '.' :: rest =>
          let (fs, r) := takeDigits rest
          (fs, r)
        | _ => ([], cs2)
      if cs3.length + 1 == cs2.length ∧ fracDs == [] then none
      else
        let afterFrac := if fracDs == [] then cs2 else cs3
        let expPart : Option (Int × List Char) :=
          match afterFrac with
          | 'e' :: rest | 'E' :: rest =>
            let (esign, rest') :=
              match rest with
              | '+' :: r => ((1 : Int), r)
              | '-' :: r => ((-1 : Int), r)
              | _ => ((1 : Int), rest)
            let (eds, rest'') := takeDigits rest'
            if eds == [] then none else some (esign * (digitsToNat eds : Int), rest'')
          | _ => some (0, afterFrac)
        match expPart with
        | none => none
        | some (e, rest) =>
          let digitsVal : Int := (digitsToNat (intDs ++ fracDs) : Int)
          let signedVal : Int := if neg then -digitsVal else digitsVal
          let e' : Int := e - (fracDs.length : Int)
          if 0 ≤ e' then
            some ((signedVal * (10 : Int) ^ e'.toNat, 0), rest)
          else
            some ((signedVal, (-e').toNat), rest)

/-- Check that the input starts with the given literal characters. -/
def litHead : List Char → List Char → Option (List Char)
  | [], cs => some cs
  | _ :: _, [] => none
  | l :: ls, c :: cs => if l == c then litHead ls cs else none

mutual

/-- Recursive-descent JSON value parser (fuel-bounded; the fuel chosen by
`jsonParse` is far larger than any parse can consume). -/
def parseVal : Nat → List Char → Option (Json × List Char)
  | 0, _ => none
  | _ + 1, [] => none
  | fuel + 1, c :: cs =>
    if c == '"' then
      match parseStrChars (cs.length + 1) cs with
      | some (s, rest) => some (.str ⟨s⟩, rest)
      | none => none
    else if c == '\x7b' then
      parseObjItems fuel true (skipWs cs)
    else if c == '[' then
      parseArrItems fuel true (skipWs cs)
    else if c == 't' then
      match litHead ['r', 'u', 'e'] cs with
      | some rest => some (.bool true, rest)
      | none => none
    else if c == 'f' then
      match litHead ['a', 'l', 's', 'e'] cs with
      | some rest => some (.bool false, rest)
      | none => none
    else if c == 'n' then
      match litHead ['u', 'l', 'l'] cs with
      | some rest => some (.null, rest)
      | none => none
    else if c == '-' ∨ c.isDigit then
      match parseNum (c :: cs) with
      | some ((m, sc), rest) => some (.num m sc, rest)
      | none => none
    else none

/-- Parse the items of a JSON array after `[` (`first` marks the position
directly after the bracket, where `]` closes an empty array). -/
def parseArrItems : Nat → Bool → List Char → Option (Json × List Char)
  | 0, _, _ => none
  | _ + 1, _, [] => none
  | fuel + 1, first, c :: cs =>
    if first ∧ c == ']' then some (.arr [], cs)
    else
      match parseVal fuel (skipWs (c :: cs)) with
      | none => none
      | some (v, rest) =>
        match skipWs rest with
        | ']' :: rest' => some (.arr [v], rest')
        | ',' :: rest' =>
          match parseArrItems fuel false (skipWs rest') with
          | some (.arr vs, rest'') => some (.arr (v :: vs), rest'')
          | _ => none
        | _ => none

/-- Parse the fields of a JSON object after the opening brace. -/
def parseObjItems : Nat → Bool → List Char → Option (Json × List Char)
  | 0, _, _ => none
  | _ + 1, _, [] => none
  | fuel + 1, first, c :: cs =>
    if first ∧ c == '\x7d' then some (.obj [], cs)
    else if c == '"' then
      match parseStrChars (cs.length + 1) cs with
      | none => none
      | some (k, rest) =>
        match skipWs rest with
        | ':' :: rest' =>
          match parseVal fuel (skipWs rest') with
          | none => none
          | some (v, rest'') =>
            match skipWs rest'' with
            | '\x7d' :: rest''' => some (.obj [(⟨k⟩, v)], rest''')
            | ',' :: rest''' =>
              match parseObjItems fuel false (skipWs rest''') with
              | some (.obj fs, r) => some (.obj ((⟨k⟩, v) :: fs), r)
              | _ => none
            | _ => none
        | _ => none
    else none

end

/-- Model of strict `JSON.parse`: parse one value surrounded by optional
whitespace; anything left over is a syntax error. -/
def jsonParse (s : String) : Option Json :=
  match parseVal (4 * s.length + 16) (skipWs s.data) with
  | some (v, rest) => if skipWs rest == [] then some v else none
  | none => none

/-- Suffix of the input starting at its first opening brace. -/
def dropToOpenBrace : List Char → Option (List Char)
  | [] => none
  | c :: cs => if c == '\x7b' then some (c :: cs) else dropToOpenBrace cs

/-- Suffix of the input starting at its first closing brace. -/
def dropToCloseBrace : List Char → Option (List Char)
  | [] => none
  | c :: cs => if c == '\x7d' then some (c :: cs) else dropToCloseBrace cs

/-- Model of the regex match `text.match(/\x7b[\s\S]*\x7d/)`: the (greedy)
substring running from the first opening brace to the last closing brace
after it, or no match. -/
def braceSubstring (s : String) : Option String :=
  match dropToOpenBrace s.data with
  | none => none
  | some suffixPart =>
    match dropToCloseBrace suffixPart.reverse with
    | none => none
    | some revPart => some ⟨revPart.reverse⟩

/-- Model of `coerceGeminiJson` from `agent.js`: strict parse, else parse of
the first-to-last-brace substring, else a wrapper object carrying the raw
text under `message`. -/
def coerceGeminiJson (text : String) : Json :=
  match jsonParse text with
  | some v => v
  | none =>
    match braceSubstring text with
    | some sub =>
      match jsonParse sub with
      | some v => v
      | none => .obj [("message", .str text)]
    | none => .obj [("message", .str text)]

/-! String helpers mirroring the JS string primitives the handlers use,
implemented over character lists so they compute by `rfl`/`decide`. -/

/-- JS `String.prototype.toLowerCase` (ASCII case folding; the Devanagari
keywords in the sources have no case). -/
def lowerStr (s : String) : String :=
  ⟨s.data.map Char.toLower⟩

/-- JS `String.prototype.trim`. -/
def trimStr (s : String) : String :=
  ⟨((s.data.dropWhile Char.isWhitespace).reverse.dropWhile Char.isWhitespace).reverse⟩

/-- Whether the second list starts with the first. -/
def startsWithChars : List Char → List Char → Bool
  | [], _ => true
  | _ :: _, [] => false
  | n :: ns, h :: hs => n == h && startsWithChars ns hs

/-- Substring occurrence over character lists. -/
def containsChars : List Char → List Char → Bool
  | [], needle => startsWithChars needle []
  | c :: t, needle => startsWithChars needle (c :: t) || containsChars t needle

/-- JS `hay.includes(needle)`. -/
def strIncludes (hay needle : String) : Bool :=
  containsChars hay.data needle.data

/-! The link catalog and the link sanitizer of `agent.js`, and the
link pass-through of the `part_002` variant. -/

/-- A resource link `{label, url}`. -/
structure Link where
  label : String
  url : String
deriving Repr, BEq, DecidableEq

/-- An entry of the `agent.js` resource catalog; the third entry carries no
`links` field (modelled as `none`). -/
structure CatalogEntry where
  message : String
  links : Option (List Link)
deriving Repr, BEq, DecidableEq

/-- The static `linkCatalog` of `agent.js`. -/
def agentLinkCatalog : List CatalogEntry :=
  [⟨"You can register here",
    some [⟨"Register", "https://divyangparbhani.altwise.in/home/newregistration"⟩]⟩,
   ⟨"You can log in using this link:",
    some [⟨"Login", "https://divyangparbhani.altwise.in/home/login"⟩]⟩,
   ⟨"I can help with divyang portal related issues only. I can\x27t help with that.", none⟩]

/-- The predicate `linkCatalog.some(known => known.links?.some(l => l.url === out.url))`
from `agent.js` (optional chaining on a missing `links` field is falsy). -/
def agentCatalogHasUrl (u : String) : Bool :=
  agentLinkCatalog.any fun known =>
    match known.links with
    | some ks => ks.any fun l => l.url == u
    | none => false

/-- The `agent.js` link sanitizer: `Array.isArray(json.links) ? json.links.filter(...) : []`
(a candidate that is not an array is modelled as `none`). -/
def sanitizeLinks (candidate : Option (List Link)) : List Link :=
  match candidate with
  | some ls => ls.filter fun out => agentCatalogHasUrl out.url
  | none => []

/-- Every URL hand-authored in any variant's catalog or prompt across the
repository (divyangparbhani login/registration/contact and the
divyangahilyanagar pair from the `part_002` prompt). -/
def knownCatalogUrls : List String :=
  ["https://divyangparbhani.altwise.in/home/login",
   "https://divyangparbhani.altwise.in/home/newregistration",
   "https://divyangparbhani.altwise.in/home/contact",
   "https://divyangahilyanagar.altwise.in/home/login",
   "https://divyangahilyanagar.altwise.in/home/newregistration"]

/-- Strip every occurrence of a fenced code tag followed by an optional
newline, i.e. the JS `replace` of three backticks plus `json` (global). -/
def stripJsonFences : List Char → List Char
  | '\x60' :: '\x60' :: '\x60' :: 'j' :: 's' :: 'o' :: 'n' :: '\n' :: rest => stripJsonFences rest
  | '\x60' :: '\x60' :: '\x60' :: 'j' :: 's' :: 'o' :: 'n' :: rest => stripJsonFences rest
  | c :: cs => c :: stripJsonFences cs
  | [] => []

/-- Strip every occurrence of a bare three-backtick fence plus optional
newline (the second JS `replace`). -/
def stripBareFences : List Char → List Char
  | '\x60' :: '\x60' :: '\x60' :: '\n' :: rest => stripBareFences rest
  | '\x60' :: '\x60' :: '\x60' :: rest => stripBareFences rest
  | c :: cs => c :: stripBareFences cs
  | [] => []

/-- The fixed apology object the `part_002` variant substitutes when the
model's reply fails to parse. -/
def part002ApologyJson : Json :=
  .obj [("message", .str "प्रिय दिव्यांग, माफ करा, काहीतरी चुकलं. कृपया पुन्हा प्रयत्न करा."),
        ("links", .arr []), ("yojanas", .arr [])]

/-- The `part_002` response-coercion pipeline: strip fences, trim, strict
parse, apology fallback. -/
def part002ParseAiResponse (aiResponse : String) : Json :=
  let cleaned := trimStr ⟨stripBareFences (stripJsonFences aiResponse.data)⟩
  match jsonParse cleaned with
  | some v => v
  | none => part002ApologyJson

/-- JS `x || dflt` applied to an (optional) property read. -/
def jsOrElse (v : Option Json) (dflt : Json) : Json :=
  match v with
  | some j => if j.truthy then j else dflt
  | none => dflt

/-- Helper producing either one field or nothing, mirroring how `res.json`
omits a key whose value is `undefined`. -/
def objField (k : String) (v : Option Json) : List (String × Json) :=
  match v with
  | some j => [(k, j)]
  | none => []

/-- The chat-response body the `part_002` variant sends for a model reply:
`{ message: parsed.message, links: parsed.links || [], yojanas: parsed.yojanas || [] }`.
No link sanitization is applied in this variant. -/
def part002ChatBody (aiResponse : String) : Json :=
  let parsed := part002ParseAiResponse aiResponse
  .obj (objField "message" (parsed.getField? "message") ++
        [("links", jsOrElse (parsed.getField? "links") (.arr [])),
         ("yojanas", jsOrElse (parsed.getField? "yojanas") (.arr []))])

/-! The welfare-scheme record and the scheme filters. -/

/-- A welfare-scheme record with the union of the fields the variants read
(the remote endpoint serves `tblDivyangTypes`/`tblYojanaDivyangTypePercentages`;
`DisabilityType` is the normalized alias some variants use). -/
structure Yojana where
  YojanaId : Nat
  YojanaName : String
  YojanaDescription : String
  Start_Age : Nat
  UpTo_Age : Nat
  tblYojanaDivyangTypePercentages : Nat
  tblDivyangTypes : String
  PublishedBy : String
  DisabilityType : String
deriving Repr, BEq, DecidableEq

/-- The filter criteria record of the `part_005` variant
(`{age?, disabilityType?, percentage?, publisher?}`). -/
structure Criteria where
  age : Option Nat
  disabilityType : Option String
  percentage : Option Nat
  publisher : Option String
deriving Repr, BEq, DecidableEq

/-- JS truthiness of an optional number (absent and `0` are falsy). -/
def truthyNat : Option Nat → Bool
  | none => false
  | some n => n != 0

/-- JS truthiness of an optional string (absent and `""` are falsy). -/
def truthyStr : Option String → Bool
  | none => false
  | some s => s != ""

/-- Capture of the regex `\((.*?)\)`: the run of non-newline characters
between the leftmost viable parenthesis pair (dot does not cross line
breaks, so a start whose group would span a newline is skipped). -/
def parenTake : List Char → Option (List Char)
  | [] => none
  | ')' :: _ => some []
  | c :: cs =>
    if c == '\n' ∨ c == '\r' then none
    else (parenTake cs).map (c :: ·)

/-- Scan for the leftmost successful `\((.*?)\)` match. -/
def parenScan : List Char → Option (List Char)
  | [] => none
  | '(' :: cs =>
    match parenTake cs with
    | some grp => some grp
    | none => parenScan cs
  | _ :: cs => parenScan cs

/-- First parenthesised group of a string, or no match. -/
def parenGroup? (s : String) : Option String :=
  (parenScan s.data).map fun cs => ⟨cs⟩

/-- A scheme as it appears in a `part_005` response: the record plus the
added `Disability` alias field. -/
structure YojanaOut where
  base : Yojana
  Disability : String
deriving Repr, BEq, DecidableEq

/-- The `ageMatch` local of `part_005`'s `filterYojanas`:
`const start = y.Start_Age || 0, end = y.UpTo_Age || 100;`
`age ? age >= start && age <= end : true` (JS `||` defaults and truthiness
made explicit). -/
def part005AgeMatch (c : Criteria) (y : Yojana) : Bool :=
  let start := if y.Start_Age == 0 then 0 else y.Start_Age
  let stop := if y.UpTo_Age == 0 then 100 else y.UpTo_Age
  match c.age with
  | some a => if a == 0 then true else decide (a ≥ start) && decide (a ≤ stop)
  | none => true

/-- The `disabilityMatch` local of `part_005`'s `filterYojanas`: extract the
parenthesised English name from `tblDivyangTypes` when present, then require
case-insensitive substring overlap in either direction. -/
def part005DisabilityMatch (c : Criteria) (y : Yojana) : Bool :=
  match c.disabilityType with
  | some d =>
    if d == "" then true
    else
      let yDis := lowerStr y.tblDivyangTypes
      let normalized :=
        match parenGroup? yDis with
        | some g => lowerStr g
        | none => yDis
      strIncludes normalized (lowerStr d) || strIncludes (lowerStr d) normalized
  | none => true

/-- The `percentageMatch` local of `part_005`'s `filterYojanas`:
`percentage ? y.tblYojanaDivyangTypePercentages >= percentage : true` —
the scheme's required percentage on the LEFT of `>=`, exactly as written in
the source. -/
def part005PercentageMatch (c : Criteria) (y : Yojana) : Bool :=
  match c.percentage with
  | some p => if p == 0 then true else decide (y.tblYojanaDivyangTypePercentages ≥ p)
  | none => true

/-- The `publisherMatch` local of `part_005`'s `filterYojanas`. -/
def part005PublisherMatch (c : Criteria) (y : Yojana) : Bool :=
  match c.publisher with
  | some pb => if pb == "" then true else lowerStr y.PublishedBy == lowerStr pb
  | none => true

/-- `filterYojanas` of the `part_005` variant: the conjunction of the four
criterion predicates, then the `.map` that copies `tblDivyangTypes` into a
`Disability` alias field. -/
def part005FilterYojanas (ys : List Yojana) (c : Criteria) : List YojanaOut :=
  (ys.filter fun y =>
      part005AgeMatch c y && part005DisabilityMatch c y &&
        part005PercentageMatch c y && part005PublisherMatch c y).map
    fun y => ⟨y, y.tblDivyangTypes⟩

/-- The three-stage filter chain of the `agent.js` yojana path (age range,
then user percentage at least the scheme's required percentage, then
substring containment of the disability in `tblDivyangTypes`). -/
def agentFilterYojanas (ys : List Yojana) (age percentage : Nat) (disability : String) : List Yojana :=
  ((ys.filter fun y => decide (age ≥ y.Start_Age) && decide (age ≤ y.UpTo_Age)).filter
      fun y => decide (percentage ≥ y.tblYojanaDivyangTypePercentages)).filter
    fun y => strIncludes y.tblDivyangTypes disability

/-- The `agent.js` yojana path after the fallback
(`if (filtered.length === 0) filtered = yojanas.slice(0, 3)`). -/
def agentYojanaFiltered (ys : List Yojana) (age percentage : Nat) (disability : String) : List Yojana :=
  let filtered := agentFilterYojanas ys age percentage disability
  if filtered.length == 0 then ys.take 3 else filtered

/-- The criteria shape `{age, disabilityType}` the `part_000` structured
path passes to its local `filterYojanas`. -/
structure Part000Criteria where
  age : Nat
  disabilityType : Option String
deriving Repr, BEq, DecidableEq

/-- `filterYojanas` of the `part_000` variant: exact age-range comparison
(no defaults) and two-sided case-insensitive substring overlap on
`DisabilityType`, with a falsy `disabilityType` matching everything. -/
def part000FilterYojanas (ys : List Yojana) (c : Part000Criteria) : List Yojana :=
  ys.filter fun y =>
    let ageMatch := decide (c.age ≥ y.Start_Age) && decide (c.age ≤ y.UpTo_Age)
    let disabilityMatch :=
      match c.disabilityType with
      | none => true
      | some d =>
        if d == "" then true
        else
          strIncludes (lowerStr y.DisabilityType) (lowerStr d) ||
            strIncludes (lowerStr d) (lowerStr y.DisabilityType)
    ageMatch && disabilityMatch

/-! The scheme source. -/

/-- Outcome of the remote scheme fetch as observed by `fetchYojanas`. -/
inductive FetchOutcome where
  | success (data : List Yojana) : FetchOutcome
  | nonArray : FetchOutcome
  | failure : FetchOutcome
deriving Repr, BEq

/-- `fetchYojanas` (shared by `part_000`, `part_001`, `part_003`,
`part_004`, `part_005`): a failed request or non-OK status is caught and
recovered as the empty collection, and a non-array payload is replaced by
the empty collection. -/
def fetchYojanas : FetchOutcome → List Yojana
  | .success data => data
  | .nonArray => []
  | .failure => []

/-- An HTTP response: status code plus JSON body. -/
structure WireResponse where
  status : Nat
  body : Json
deriving Repr, BEq

/-- Outcome of the axios fetch in the second `agent.js` variant (it reads
`apiRes.data` directly; any error is caught in the surrounding block). -/
inductive AxiosOutcome where
  | success (data : List Yojana) : AxiosOutcome
  | failure : AxiosOutcome
deriving Repr, BEq

/-- Step 2 of the second `agent.js` variant's chat handler: on a fetch
error it returns early with a 500 response. -/
def agentAxiosFetchStep : AxiosOutcome → Except WireResponse (List Yojana)
  | .success d => .ok d
  | .failure =>
    .error ⟨500, .obj [("message", .str "Unable to fetch Yojana data. Please try later."),
                       ("links", .arr [])]⟩

/-! Slot extraction. -/

/-- JS word character (`\w` is ASCII letters, digits and underscore). -/
def isJsWordChar (c : Char) : Bool :=
  c.isAlpha || c.isDigit || c == '_'

/-- Leftmost match of the regex for a one-or-two digit number between word
boundaries: a maximal digit run of length at most two flanked by non-word
characters (or the ends of the input).  The flag records whether the
previous character was a word character. -/
def scanSmallNumber : Bool → List Char → Option Nat
  | _, [] => none
  | prevWord, c :: cs =>
    if ¬prevWord ∧ c.isDigit then
      let (run, rest) := takeDigits (c :: cs)
      if run.length ≤ 2 ∧ ¬isJsWordChar (rest.headD ' ') then some (digitsToNat run)
      else scanSmallNumber (isJsWordChar c) cs
    else scanSmallNumber (isJsWordChar c) cs

/-- `detectAge` (identical in `part_000` and `part_005`): first bare 1-2
digit number, accepted only in 1..100. -/
def detectAge (msg : String) : Option Nat :=
  match scanSmallNumber false msg.data with
  | some n => if 1 ≤ n ∧ n ≤ 100 then some n else none
  | none => none

/-- The 21-entry keyword table of `part_005`'s `detectDisability`. -/
def part005DisabilityMap : List (String × List String) :=
  [("blindness", ["पूर्णतः अंध", "blindness", "blind"]),
   ("low vision", ["अंशतः अंध", "low vision", "partially blind"]),
   ("hearing impairment", ["कर्णबधीर", "hearing impairment", "deaf"]),
   ("speech and language disability", ["वाचा दोष", "speech disability", "language disability"]),
   ("locomotor disability", ["अस्थिव्यंग", "locomotor disability", "physical disability"]),
   ("mental illness", ["मानसिक आजार", "mental illness"]),
   ("learning disability", ["अध्ययन अक्षम", "learning disability"]),
   ("cerebral palsy", ["मेंदूचा पक्षाघात", "cerebral palsy"]),
   ("autism", ["स्वमग्न", "autism"]),
   ("multiple disability", ["बहुविकलांग", "multiple disability"]),
   ("leprosy cured", ["कुष्ठरोग", "leprosy cured"]),
   ("dwarfism", ["बुटकेपणा", "dwarfism"]),
   ("intellectual disability", ["बौद्धिक अक्षमता", "intellectual disability"]),
   ("muscular disability", ["माशपेशीय क्षरण", "muscular disability", "muscular dystrophy"]),
   ("chronic neurological conditions", ["मज्जासंस्थेचे तीव्र आजार", "chronic neurological conditions"]),
   ("multiple sclerosis", ["मल्टिपल स्क्लेरोसिस", "multiple sclerosis"]),
   ("thalassemia", ["थॅलेसिमिया", "thalassemia"]),
   ("hemophilia", ["अधिक रक्तस्त्राव", "hemophilia"]),
   ("sickle cell disease", ["सिकल सेल", "sickle cell disease", "sickle cell"]),
   ("acid attack victim", ["अॅसिड अटॅक", "acid attack victim", "acid attack"]),
   ("parkinson\x27s disease", ["कंपवात रोग", "parkinson\x27s disease", "parkinson"])]

/-- `detectDisability` of `part_005`: first table entry one of whose
keywords occurs in the lowercased message. -/
def part005DetectDisability (msg : String) : Option String :=
  let text := lowerStr msg
  ((part005DisabilityMap.find? fun td =>
      td.2.any fun k => strIncludes text (lowerStr k))).map (·.1)

/-- `detectDisability` of `part_000`: three keyword groups mapping to
`vision` / `hearing` / `physical`, checked in order. -/
def part000DetectDisability (msg : String) : Option String :=
  let m := lowerStr msg
  if strIncludes m "blind" || strIncludes m "vision" || strIncludes m "अंध" then some "vision"
  else if strIncludes m "deaf" || strIncludes m "hearing" || strIncludes m "कर्णबधीर" then some "hearing"
  else if strIncludes m "physical" || strIncludes m "locomotor" || strIncludes m "अस्थिव्यंग" then some "physical"
  else none

/-- The per-user slot memory `{ age: null, disability: null }`. -/
structure SessionSlots where
  age : Option Nat
  disability : Option String
deriving Repr, BEq, DecidableEq

/-- The conditional slot writes
`if (detectedAge) session.age = detectedAge; if (detectedDisability) session.disability = detectedDisability;`
shared by `part_000` and `part_005` (JS truthiness guards made explicit). -/
def updateSessionSlots (detAge : Option Nat) (detDis : Option String) (s : SessionSlots) : SessionSlots :=
  { age := if truthyNat detAge then detAge else s.age,
    disability := if truthyStr detDis then detDis else s.disability }

/-- One message's slot processing in the `part_005` handler. -/
def part005ProcessSlots (s : SessionSlots) (msg : String) : SessionSlots :=
  updateSessionSlots (detectAge msg) (part005DetectDisability msg) s

/-- One message's slot processing in the `part_000` handler. -/
def part000ProcessSlots (s : SessionSlots) (msg : String) : SessionSlots :=
  updateSessionSlots (detectAge msg) (part000DetectDisability msg) s

/-! The structured-form query regex, shared (up to literals and the
case-insensitivity flag) by `part_000` and `part_005`. -/

/-- Match a literal at the head of the input, optionally case-insensitively. -/
def litMatch (ci : Bool) : List Char → List Char → Option (List Char)
  | [], cs => some cs
  | _ :: _, [] => none
  | l :: ls, c :: cs =>
    if (ci && (l.toLower == c.toLower)) || (!ci && (l == c)) then litMatch ci ls cs
    else none

/-- The lazy group `(.+?)` followed by a literal and at least one digit:
consume non-newline characters one at a time (at least one), stopping at
the earliest point where the literal plus a digit can match. -/
def lazyMiddle (ci : Bool) (lit : List Char) : List Char → Option (List Char × List Char)
  | [] => none
  | c :: cs =>
    if c == '\n' ∨ c == '\r' then none
    else
      match litMatch ci lit cs with
      | some rest =>
        if (rest.headD ' ').isDigit then some ([c], rest)
        else
          match lazyMiddle ci lit cs with
          | some (grp, r) => some (c :: grp, r)
          | none => none
      | none =>
        match lazyMiddle ci lit cs with
        | some (grp, r) => some (c :: grp, r)
        | none => none

/-- Try the full structured pattern
`lit1 (\d+) lit2 (.+?) lit3 (\d+)` at the current position. -/
def structuredAt (ci : Bool) (lit1 lit2 lit3 : List Char) (cs : List Char) :
    Option (Nat × String × Nat) :=
  match litMatch ci lit1 cs with
  | none => none
  | some r1 =>
    let (ds1, r2) := takeDigits r1
    if ds1 == [] then none
    else
      match litMatch ci lit2 r2 with
      | none => none
      | some r3 =>
        match lazyMiddle ci lit3 r3 with
        | none => none
        | some (grp, r4) =>
          let (ds2, _) := takeDigits r4
          if ds2 == [] then none
          else some (digitsToNat ds1, ⟨grp⟩, digitsToNat ds2)

/-- Leftmost occurrence of the structured pattern anywhere in the input. -/
def scanStructured (ci : Bool) (lit1 lit2 lit3 : List Char) : List Char → Option (Nat × String × Nat)
  | [] => none
  | c :: cs =>
    match structuredAt ci lit1 lit2 lit3 (c :: cs) with
    | some r => some r
    | none => scanStructured ci lit1 lit2 lit3 cs

/-- `parseStructuredQuery` of `part_000` (case-sensitive, prefixed literal),
returning `{age, disabilityType: match[2].trim(), percentage}`. -/
def part000ParseStructuredQuery (msg : String) : Option (Nat × String × Nat) :=
  (scanStructured false "Get Yojana for Age: ".data ", Disability: ".data ", Percentage: ".data
      msg.data).map
    fun r => (r.1, trimStr r.2.1, r.2.2)

/-- The 21-entry normalization table inside `part_005`'s
`parseStructuredQuery` (note the `blankness` typo it carries for the first
entry's second keyword). -/
def part005StructuredDisabilityMap : List (String × List String) :=
  [("blindness", ["पूर्णतः अंध", "blankness", "blind"]),
   ("low vision", ["अंशतः अंध", "low vision", "partially blind"]),
   ("hearing impairment", ["कर्णबधीर", "hearing impairment", "deaf"]),
   ("speech and language disability", ["वाचा दोष", "speech disability", "language disability"]),
   ("locomotor disability", ["अस्थिव्यंग", "locomotor disability", "physical disability"]),
   ("mental illness", ["मानसिक आजार", "mental illness"]),
   ("learning disability", ["अध्ययन अक्षम", "learning disability"]),
   ("cerebral palsy", ["मेंदूचा पक्षाघात", "cerebral palsy"]),
   ("autism", ["स्वमग्न", "autism"]),
   ("multiple disability", ["बहुविकलांग", "multiple disability"]),
   ("leprosy cured", ["कुष्ठरोग", "leprosy cured"]),
   ("dwarfism", ["बुटकेपणा", "dwarfism"]),
   ("intellectual disability", ["बौद्धिक अक्षमता", "intellectual disability"]),
   ("muscular disability", ["माशपेशीय क्षरण", "muscular disability", "muscular dystrophy"]),
   ("chronic neurological conditions", ["मज्जासंस्थेचे तीव्र आजार", "chronic neurological conditions"]),
   ("multiple sclerosis", ["मल्टिपल स्क्लेरोसिस", "multiple sclerosis"]),
   ("thalassemia", ["थॅलेसिमिया", "thalassemia"]),
   ("hemophilia", ["अधिक रक्तस्त्राव", "hemophilia"]),
   ("sickle cell disease", ["सिकल सेल", "sickle cell disease", "sickle cell"]),
   ("acid attack victim", ["अॅसिड अटॅक", "acid attack victim", "acid attack"]),
   ("parkinson\x27s disease", ["कंपवात रोग", "parkinson\x27s disease", "parkinson"])]

/-- `parseStructuredQuery` of `part_005` (case-insensitive, no prefix),
normalizing the captured disability through its keyword table. -/
def part005ParseStructuredQuery (msg : String) : Option (Nat × String × Nat) :=
  match scanStructured true "Age: ".data ", Disability: ".data ", Percentage: ".data msg.data with
  | none => none
  | some (a, d, p) =>
    let disabilityInput := lowerStr (trimStr d)
    let matched := part005StructuredDisabilityMap.find? fun td =>
      td.2.any fun k => strIncludes disabilityInput (lowerStr k)
    some (a, ((matched.map (·.1)).getD (trimStr d)), p)

/-! Handler fragments the claims are about. -/

/-- The `part_000` structured-query response: message text plus the top
three filtered schemes. -/
structure Part000StructuredReply where
  message : String
  yojanas : List Yojana
  links : List Link
deriving Repr, BEq, DecidableEq

/-- The structured-form branch of the `part_000` chat handler: parse the
form message, filter by `{age, disabilityType}` only (the parsed percentage
is dropped), and answer with the top three matches. -/
def part000StructuredChat (ys : List Yojana) (msg : String) : Option Part000StructuredReply :=
  match part000ParseStructuredQuery msg with
  | none => none
  | some (age, dis, _pct) =>
    let filtered := part000FilterYojanas ys ⟨age, some dis⟩
    let top := filtered.take 3
    let rmsg :=
      if top.length > 0 then
        "Based on your age (" ++ toString age ++ ") and disability type (" ++ dis ++
          "), here are the suitable schemes:"
      else
        "Sorry, no schemes found for your criteria. Age: " ++ toString age ++ ", Disability: " ++ dis
    some ⟨rmsg, top, []⟩

/-- A `part_005` chat response (status, message, links, schemes). -/
structure Part005Reply where
  status : Nat
  message : String
  links : List Link
  yojanas : List YojanaOut
deriving Repr, BEq, DecidableEq

/-- The structured-form branch of the `part_005` chat handler, with the
scheme-source outcome made explicit: the fetched (or recovered-empty)
collection is filtered by the parsed criteria and always answered with
HTTP 200. -/
def part005StructuredChat (fetch : FetchOutcome) (msg : String) : Option Part005Reply :=
  match part005ParseStructuredQuery msg with
  | none => none
  | some (a, d, p) =>
    let allYojanas := fetchYojanas fetch
    let filtered := part005FilterYojanas allYojanas ⟨some a, some d, some p, none⟩
    let m :=
      if filtered.length > 0 then
        "Found " ++ toString filtered.length ++ " schemes matching your criteria."
      else "No schemes found for your criteria."
    some ⟨200, m, [], filtered⟩

/-! Request validation and the 400 responses. -/

/-- An inbound request body as far as validation observes it (`none` models
a missing or non-string `message`). -/
structure RawChatRequest where
  message : Option String
deriving Repr, BEq, DecidableEq

/-- The zod rule `message: z.string().min(1)`. -/
def zodValidateMessage (r : RawChatRequest) : Bool :=
  match r.message with
  | some m => decide (1 ≤ m.length)
  | none => false

/-- The zod issue list surfaced on failure (non-empty exactly when
validation fails). -/
def zodErrors (r : RawChatRequest) : List String :=
  if zodValidateMessage r then [] else ["Message is required"]

/-- The 400 body of the first `part_000` variant:
`{ message: 'Invalid request', errors, links: [], yojanas: [] }`. -/
def part000InvalidReply (errs : List String) : WireResponse :=
  ⟨400, .obj [("message", .str "Invalid request"),
              ("errors", .arr (errs.map .str)),
              ("links", .arr []),
              ("yojanas", .arr [])]⟩

/-- The validation step of the first `part_000` variant's chat handler. -/
def part000ValidateStep (r : RawChatRequest) : Option WireResponse :=
  if zodValidateMessage r then none else some (part000InvalidReply (zodErrors r))

/-- The 400 body of `agent.js`:
`{ error: 'Invalid request', details: parsed.error.flatten() }` (the
flattened zod shape `{formErrors, fieldErrors}`). -/
def agentInvalidReply (errs : List String) : WireResponse :=
  ⟨400, .obj [("error", .str "Invalid request"),
              ("details", .obj [("formErrors", .arr []),
                                ("fieldErrors", .obj [("message", .arr (errs.map .str))])])]⟩

/-- The validation step of the `agent.js` chat handler. -/
def agentValidateStep (r : RawChatRequest) : Option WireResponse :=
  if zodValidateMessage r then none else some (agentInvalidReply (zodErrors r))

/-! Sessions and the periodic sweep (`part_001` / `part_003`). -/

/-- A conversation-memory session: ordered turns plus the `lastActivity`
slot the sweep reads.  No statement in either variant ever assigns
`lastActivity`, so it stays `none` for the session's whole life. -/
structure UserSession where
  conversationHistory : List (String × String)
  lastActivity : Option Nat
deriving Repr, BEq, DecidableEq

/-- Session creation: `userSessions.set(userId, { conversationHistory: [] })`. -/
def part003InitSession : UserSession :=
  ⟨[], none⟩

/-- One chat request's effect on a session in `part_003`: push the user
turn, truncate to the last ten turns, then push the bot turn.
`lastActivity` is untouched. -/
def part003SessionStep (s : UserSession) (userMsg botMsg : String) : UserSession :=
  let h1 := s.conversationHistory ++ [("user", userMsg)]
  let h2 := if decide (h1.length > 10) then h1.drop (h1.length - 10) else h1
  ⟨h2 ++ [("bot", botMsg)], s.lastActivity⟩

/-- The periodic sweep of `part_001`/`part_003`: delete a session when
`!session.lastActivity || now - session.lastActivity > 2 * 60 * 60 * 1000`
(an absent — or zero, hence falsy — `lastActivity` is deleted outright). -/
def part003CleanupSessions (now : Nat) (store : List (String × UserSession)) :
    List (String × UserSession) :=
  store.filter fun us =>
    match us.2.lastActivity with
    | none => false
    | some t => if t == 0 then false else !(decide (now - t > 2 * 60 * 60 * 1000))

/-- The session a user holds after any sequence of chat exchanges. -/
def part003SessionAfter (turns : List (String × String)) : UserSession :=
  turns.foldl (fun s t => part003SessionStep s t.1 t.2) part003InitSession

/-! The health endpoint. -/

/-- The whole mutable state of the service process: the session map. -/
structure ServerState where
  sessions : List (String × UserSession)
deriving Repr, BEq, DecidableEq

/-- The fixed health payload `{ ok: true }`. -/
def healthPayload : Json :=
  .obj [("ok", .bool true)]

/-- `app.get('/api/health', (req, res) => res.json({ ok: true }))`: a
handler that reads nothing and writes nothing. -/
def healthHandler (st : ServerState) : WireResponse × ServerState :=
  (⟨200, healthPayload⟩, st)

/-- `n` successive calls of the health endpoint: the list of responses and
the final state. -/
def healthCalls (st : ServerState) : Nat → List WireResponse × ServerState
  | 0 => ([], st)
  | n + 1 =>
    let (r, st') := healthHandler st
    let (rs, st'') := healthCalls st' n
    (r :: rs, st'')

/-! Concrete fixtures used by witnesses and counterexamples. -/

/-- A model reply carrying a link that appears in no catalog. -/
def evilAiText : String :=
  "\x7b\"message\":\"m\",\"links\":[\x7b\"label\":\"Evil\",\"url\":\"https://evil.example/phish\"\x7d]\x7d"

/-- A well-formed scheme record inside all bounds. -/
def sampleScheme : Yojana :=
  ⟨2, "Sample Yojana", "sample description", 18, 60, 40, "blindness", "nagar panchayat", "blindness"⟩

/-- A degenerate scheme record whose upper age bound is zero (falsy in JS). -/
def zeroUpToScheme : Yojana :=
  ⟨1, "Zero Upper Bound Yojana", "", 5, 0, 40, "blindness", "nagar panchayat", "blindness"⟩

/-- A scheme requiring a higher disability percentage (80) than a user
reporting 60 satisfies. -/
def highRequirementScheme : Yojana :=
  ⟨3, "High Requirement Yojana", "", 0, 99, 80, "blindness", "nagar panchayat", "blindness"⟩

end ChatBot

namespace ChatBot

/-- C1 (counterexample): on the input `"\x7b\x7d"` — a syntactically valid
empty JSON object — the strict parse succeeds, so `coerceGeminiJson`
returns the empty object, which carries no `message` field; the claimed
guarantee "always returns an object containing at least a message field"
therefore fails on this input. -/
theorem coerce_missing_message_counterexample :
    coerceGeminiJson "\x7b\x7d" = Json.obj [] ∧
      (coerceGeminiJson "\x7b\x7d").hasField "message" = false :=
  ⟨rfl, rfl⟩

/-- C1 (amended): for every input string, `coerceGeminiJson` is total and
follows exactly the fallback ladder — the strict JSON parse of the text
when it succeeds, else the parse of the first-to-last-brace substring when
that succeeds, else exactly `\x7b message: rawText \x7d`; only this final
fallback is guaranteed to carry a `message` field. -/
theorem coerce_fallback_ladder (text : String) :
    jsonParse text = some (coerceGeminiJson text) ∨
    (jsonParse text = none ∧
      ∃ sub, braceSubstring text = some sub ∧ jsonParse sub = some (coerceGeminiJson text)) ∨
    (coerceGeminiJson text = Json.obj [("message", Json.str text)] ∧
      (coerceGeminiJson text).hasField "message" = true) := by
  cases h1 : jsonParse text with
  | some v =>
    left
    simp only [coerceGeminiJson, h1]
  | none =>
    cases h2 : braceSubstring text with
    | none =>
      right; right
      refine ⟨?_, ?_⟩
      · simp only [coerceGeminiJson, h1, h2]
      · simp only [coerceGeminiJson, h1, h2]
        rfl
    | some sub =>
      cases h3 : jsonParse sub with
      | some v =>
        right; left
        refine ⟨rfl, sub, rfl, ?_⟩
        simp only [coerceGeminiJson, h1, h2, h3]
      | none =>
        right; right
        refine ⟨?_, ?_⟩
        · simp only [coerceGeminiJson, h1, h2, h3]
        · simp only [coerceGeminiJson, h1, h2, h3]
          rfl

/-- C2 (counterexample): the `part_002` variant returns the model's links
without any sanitization, so a response can carry a URL that matches no
catalog entry. -/
theorem part002_link_passthrough_counterexample :
    (part002ChatBody evilAiText).getField? "links" =
      some (Json.arr [Json.obj [("label", Json.str "Evil"),
                                ("url", Json.str "https://evil.example/phish")]]) ∧
    knownCatalogUrls.contains "https://evil.example/phish" = false ∧
    agentCatalogHasUrl "https://evil.example/phish" = false :=
  ⟨rfl, rfl, rfl⟩

/-- C2 (amended): in `agent.js` the sanitizer is a strict subset filter —
every link it lets through has a URL that exactly matches some catalog
entry, for any candidate list; the `part_002` variant, however, performs no
sanitization and forwards the model's links unchanged. -/
theorem sanitize_links_subset_of_catalog (candidate : Option (List Link)) (out : Link)
    (h : out ∈ sanitizeLinks candidate) : agentCatalogHasUrl out.url = true := by
  cases candidate with
  | none => simp [sanitizeLinks] at h
  | some ls =>
    simp only [sanitizeLinks] at h
    exact (List.mem_filter.mp h).2

/-- C2 (witness): the catalog login link survives sanitization and its URL
is indeed a catalog URL. -/
theorem sanitize_links_subset_of_catalog_witness :
    agentCatalogHasUrl (Link.mk "Login" "https://divyangparbhani.altwise.in/home/login").url = true :=
  sanitize_links_subset_of_catalog
    (some [⟨"Login", "https://divyangparbhani.altwise.in/home/login"⟩])
    ⟨"Login", "https://divyangparbhani.altwise.in/home/login"⟩ (List.Mem.head _)

/-- C3 (amended): `fetchYojanas` recovers a failed fetch as the empty
collection, and the `part_005` structured scheme query still answers
HTTP 200 with an empty yojanas array when the fetch fails; the axios-based
`agent.js` variant, by contrast, surfaces a fetch failure as a 500. -/
theorem fetch_failure_recovers_empty_and_200 :
    fetchYojanas .failure = [] ∧
    ∀ (msg : String) (a : Nat) (d : String) (p : Nat),
      part005ParseStructuredQuery msg = some (a, d, p) →
      part005StructuredChat .failure msg =
        some ⟨200, "No schemes found for your criteria.", [], []⟩ := by
  refine ⟨rfl, ?_⟩
  intro msg a d p h
  simp only [part005StructuredChat, h, fetchYojanas, part005FilterYojanas]
  rfl

/-- C3 (witness): a concrete structured scheme query under a failed fetch
gets a 200 response with no schemes. -/
theorem fetch_failure_recovers_empty_and_200_witness :
    part005ParseStructuredQuery "Age: 25, Disability: blind, Percentage: 60" =
      some (25, "blindness", 60) ∧
    part005StructuredChat .failure "Age: 25, Disability: blind, Percentage: 60" =
      some ⟨200, "No schemes found for your criteria.", [], []⟩ :=
  ⟨rfl, fetch_failure_recovers_empty_and_200.2 _ 25 "blindness" 60 rfl⟩

/-- C3 (counterexample): the second `agent.js` variant answers a failed
scheme fetch with a 500 response, so a scheme-source failure is surfaced to
the caller there. -/
theorem agent_axios_fetch_failure_500 :
    agentAxiosFetchStep .failure =
      .error ⟨500, .obj [("message", .str "Unable to fetch Yojana data. Please try later."),
                         ("links", .arr [])]⟩ :=
  rfl

/-- Helper: a scheme passing `part_005`'s age predicate for a truthy
supplied age lies above `Start_Age` and below the (JS-defaulted) upper
bound. -/
theorem part005AgeMatch_bounds {c : Criteria} {y : Yojana} {a : Nat}
    (hge : c.age = some a) (ha : a ≠ 0) (h : part005AgeMatch c y = true) :
    y.Start_Age ≤ a ∧ a ≤ (if y.UpTo_Age = 0 then 100 else y.UpTo_Age) := by
  simp only [part005AgeMatch, hge, beq_iff_eq] at h
  rw [if_neg ha] at h
  simp only [Bool.and_eq_true, decide_eq_true_eq, ge_iff_le] at h
  obtain ⟨h1, h2⟩ := h
  refine ⟨?_, h2⟩
  split at h1 <;> omega

/-- C4 (counterexample): `part_005` defaults a falsy upper age bound to 100
(`y.UpTo_Age || 100`), so a scheme whose `UpTo_Age` is 0 is retained for a
supplied age of 50 even though 50 does not lie within `[Start_Age, UpTo_Age]`. -/
theorem part005_age_default_counterexample :
    part005FilterYojanas [zeroUpToScheme] ⟨some 50, none, none, none⟩ =
      [⟨zeroUpToScheme, "blindness"⟩] ∧
    ¬(50 ≤ zeroUpToScheme.UpTo_Age) :=
  ⟨rfl, by decide⟩

/-- C4 (amended): whenever an age criterion is supplied (JS-truthy), every
scheme retained by `part_005`'s `filterYojanas` satisfies
`Start_Age ≤ age ≤ UpTo_Age` with a falsy `UpTo_Age` defaulted to 100; the
`agent.js` filter chain, which applies the comparisons directly, satisfies
the bounds exactly as the claim states them. -/
theorem filter_age_within_range :
    (∀ (ys : List Yojana) (c : Criteria) (a : Nat), c.age = some a → a ≠ 0 →
      ∀ out ∈ part005FilterYojanas ys c,
        out.base.Start_Age ≤ a ∧
          a ≤ (if out.base.UpTo_Age = 0 then 100 else out.base.UpTo_Age)) ∧
    (∀ (ys : List Yojana) (age percentage : Nat) (disability : String),
      ∀ y ∈ agentFilterYojanas ys age percentage disability,
        y.Start_Age ≤ age ∧ age ≤ y.UpTo_Age) := by
  constructor
  · intro ys c a hge ha out hmem
    simp only [part005FilterYojanas, List.mem_map] at hmem
    obtain ⟨y, hy, rfl⟩ := hmem
    have hp := (List.mem_filter.mp hy).2
    simp only [Bool.and_eq_true] at hp
    exact part005AgeMatch_bounds hge ha hp.1.1.1
  · intro ys age percentage disability y hmem
    simp only [agentFilterYojanas] at hmem
    have h1 := (List.mem_filter.mp ((List.mem_filter.mp ((List.mem_filter.mp hmem).1)).1)).2
    simp only [Bool.and_eq_true, decide_eq_true_eq, ge_iff_le] at h1
    exact h1

/-- C4 (witness): a 25-year-old query against a scheme for ages 18-60 keeps
the scheme, and the retained scheme satisfies the bounds in both filters. -/
theorem filter_age_within_range_witness :
    (sampleScheme.Start_Age ≤ 25 ∧
      25 ≤ (if sampleScheme.UpTo_Age = 0 then 100 else sampleScheme.UpTo_Age)) ∧
    (sampleScheme.Start_Age ≤ 25 ∧ 25 ≤ sampleScheme.UpTo_Age) :=
  ⟨filter_age_within_range.1 [sampleScheme] ⟨some 25, none, none, none⟩ 25 rfl
      (by decide) ⟨sampleScheme, sampleScheme.tblDivyangTypes⟩ (List.Mem.head _),
    filter_age_within_range.2 [sampleScheme] 25 40 "blind" sampleScheme (List.Mem.head _)⟩

/-- C5: evaluation at the failing input — with a supplied percentage of 60,
`part_005`'s `filterYojanas` RETAINS a scheme requiring 80 percent
(`y.tblYojanaDivyangTypePercentages >= percentage` keeps schemes whose
requirement is at least the user's figure, the reverse of the contract that
the user's percentage must be at least the scheme's requirement). -/
theorem part005_percentage_comparison_reversed :
    part005FilterYojanas [highRequirementScheme] ⟨none, none, some 60, none⟩ =
      [⟨highRequirementScheme, "blindness"⟩] ∧
    ¬(highRequirementScheme.tblYojanaDivyangTypePercentages ≤ 60) :=
  ⟨rfl, by decide⟩

/-- C6 (counterexample): `agent.js` rejects an empty message with 400, but
its body is `\x7b error, details \x7d` — it has no `errors` field and no
`links`/`yojanas` arrays, so the claimed 400 shape fails there. -/
theorem agent_invalid_request_shape_counterexample :
    agentValidateStep ⟨some ""⟩ = some (agentInvalidReply ["Message is required"]) ∧
    (agentInvalidReply ["Message is required"]).status = 400 ∧
    (agentInvalidReply ["Message is required"]).body.hasField "error" = true ∧
    (agentInvalidReply ["Message is required"]).body.hasField "errors" = false ∧
    (agentInvalidReply ["Message is required"]).body.hasField "links" = false ∧
    (agentInvalidReply ["Message is required"]).body.hasField "yojanas" = false :=
  ⟨rfl, rfl, rfl, rfl, rfl, rfl⟩

/-- C6 (amended): the `part_000` variant (and the identically shaped
`part_002`/`part_004` bodies) answers an empty or missing message with
HTTP 400, a non-empty `errors` array and empty `links` and `yojanas`
arrays; the `agent.js` variants answer 400 with an `\x7b error, details \x7d`
body instead. -/
theorem part000_invalid_request_400 (r : RawChatRequest)
    (h : zodValidateMessage r = false) :
    part000ValidateStep r = some (part000InvalidReply (zodErrors r)) ∧
    (part000InvalidReply (zodErrors r)).status = 400 ∧
    zodErrors r ≠ [] ∧
    (part000InvalidReply (zodErrors r)).body.getField? "errors" =
      some (.arr ((zodErrors r).map .str)) ∧
    (part000InvalidReply (zodErrors r)).body.getField? "links" = some (.arr []) ∧
    (part000InvalidReply (zodErrors r)).body.getField? "yojanas" = some (.arr []) := by
  refine ⟨?_, rfl, ?_, rfl, rfl, rfl⟩
  · simp [part000ValidateStep, h]
  · simp [zodErrors, h]

/-- C6 (witness): the empty message is rejected with the full claimed
shape. -/
theorem part000_invalid_request_400_witness :
    part000ValidateStep ⟨some ""⟩ = some (part000InvalidReply (zodErrors ⟨some ""⟩)) ∧
    (part000InvalidReply (zodErrors ⟨some ""⟩)).status = 400 ∧
    zodErrors ⟨some ""⟩ ≠ [] ∧
    (part000InvalidReply (zodErrors ⟨some ""⟩)).body.getField? "errors" =
      some (.arr ((zodErrors ⟨some ""⟩).map .str)) ∧
    (part000InvalidReply (zodErrors ⟨some ""⟩)).body.getField? "links" = some (.arr []) ∧
    (part000InvalidReply (zodErrors ⟨some ""⟩)).body.getField? "yojanas" = some (.arr []) :=
  part000_invalid_request_400 ⟨some ""⟩ rfl

/-- Helper: a single chat exchange never assigns `lastActivity`. -/
theorem part003SessionStep_lastActivity (s : UserSession) (u b : String) :
    (part003SessionStep s u b).lastActivity = s.lastActivity :=
  rfl

/-- Helper: after any sequence of chat exchanges, `lastActivity` is still
unset, because no handler statement ever writes it. -/
theorem part003SessionAfter_lastActivity (turns : List (String × String)) :
    (part003SessionAfter turns).lastActivity = none := by
  suffices h : ∀ (ts : List (String × String)) (s : UserSession),
      (ts.foldl (fun s t => part003SessionStep s t.1 t.2) s).lastActivity = s.lastActivity by
    exact h turns part003InitSession
  intro ts
  induction ts with
  | nil => intro s; rfl
  | cons t ts ih =>
    intro s
    rw [List.foldl_cons, ih]
    rfl

/-- C7: evaluation of the session sweep at the failing input — because the
handlers never assign `lastActivity`, the guard
`!session.lastActivity || now - session.lastActivity > 2h` is true for
every session the service can ever hold, so each sweep run deletes every
session regardless of how recent its activity is (here: a session after an
arbitrary sequence of exchanges, swept at an arbitrary instant, is gone). -/
theorem sweep_deletes_every_session (now : Nat) (uid : String)
    (turns : List (String × String)) :
    part003CleanupSessions now [(uid, part003SessionAfter turns)] = [] := by
  have h := part003SessionAfter_lastActivity turns
  simp [part003CleanupSessions, List.filter, h]

/-- Helper: an undetected age leaves the stored age unchanged. -/
theorem updateSessionSlots_age_none {da : Option Nat} (dd : Option String)
    (s : SessionSlots) (h : da = none) : (updateSessionSlots da dd s).age = s.age := by
  simp [updateSessionSlots, h, truthyNat]

/-- Helper: an undetected disability leaves the stored disability unchanged. -/
theorem updateSessionSlots_dis_none (da : Option Nat) {dd : Option String}
    (s : SessionSlots) (h : dd = none) :
    (updateSessionSlots da dd s).disability = s.disability := by
  simp [updateSessionSlots, h, truthyStr]

/-- Helper: a stored age is never cleared by a slot update. -/
theorem updateSessionSlots_age_mono (da : Option Nat) (dd : Option String)
    (s : SessionSlots) (h : s.age ≠ none) : (updateSessionSlots da dd s).age ≠ none := by
  unfold updateSessionSlots truthyNat
  cases da with
  | none => simpa using h
  | some a => by_cases ha : a = 0 <;> simp [ha, h]

/-- Helper: a stored disability is never cleared by a slot update. -/
theorem updateSessionSlots_dis_mono (da : Option Nat) (dd : Option String)
    (s : SessionSlots) (h : s.disability ≠ none) :
    (updateSessionSlots da dd s).disability ≠ none := by
  unfold updateSessionSlots truthyStr
  cases dd with
  | none => simpa using h
  | some d => by_cases hd : d = "" <;> simp [hd, h]

/-- C8: slot extraction is monotone over the session in both the `part_000`
and the `part_005` handler — when no age (respectively disability) pattern
matches, the stored value is left untouched, and a non-null stored slot is
never reset to null by processing a message. -/
theorem slot_extraction_monotone (s : SessionSlots) (msg : String) :
    (detectAge msg = none →
      (part005ProcessSlots s msg).age = s.age ∧ (part000ProcessSlots s msg).age = s.age) ∧
    (part005DetectDisability msg = none →
      (part005ProcessSlots s msg).disability = s.disability) ∧
    (part000DetectDisability msg = none →
      (part000ProcessSlots s msg).disability = s.disability) ∧
    (s.age ≠ none →
      (part005ProcessSlots s msg).age ≠ none ∧ (part000ProcessSlots s msg).age ≠ none) ∧
    (s.disability ≠ none →
      (part005ProcessSlots s msg).disability ≠ none ∧
        (part000ProcessSlots s msg).disability ≠ none) := by
  refine ⟨?_, ?_, ?_, ?_, ?_⟩
  · intro h
    exact ⟨updateSessionSlots_age_none _ s h, updateSessionSlots_age_none _ s h⟩
  · intro h
    exact updateSessionSlots_dis_none _ s h
  · intro h
    exact updateSessionSlots_dis_none _ s h
  · intro h
    exact ⟨updateSessionSlots_age_mono _ _ s h, updateSessionSlots_age_mono _ _ s h⟩
  · intro h
    exact ⟨updateSessionSlots_dis_mono _ _ s h, updateSessionSlots_dis_mono _ _ s h⟩

/-- C8 (witness): a greeting with no age or disability pattern leaves a
filled session untouched in both variants. -/
theorem slot_extraction_monotone_witness :
    (part005ProcessSlots ⟨some 25, some "blindness"⟩ "hello").age = some 25 ∧
    (part000ProcessSlots ⟨some 25, some "blindness"⟩ "hello").age = some 25 ∧
    (part005ProcessSlots ⟨some 25, some "blindness"⟩ "hello").disability = some "blindness" ∧
    (part005ProcessSlots ⟨some 25, some "blindness"⟩ "hello").age ≠ none :=
  ⟨((slot_extraction_monotone ⟨some 25, some "blindness"⟩ "hello").1 rfl).1,
   ((slot_extraction_monotone ⟨some 25, some "blindness"⟩ "hello").1 rfl).2,
   (slot_extraction_monotone ⟨some 25, some "blindness"⟩ "hello").2.1 rfl,
   ((slot_extraction_monotone ⟨some 25, some "blindness"⟩ "hello").2.2.2.1
      (by decide)).1⟩

/-- C9: the health endpoint is idempotent and pure — any number of calls in
any server state yields the identical fixed `200 / \x7b ok: true \x7d`
response each time and leaves the state unchanged. -/
theorem health_idempotent (st : ServerState) (n : Nat) :
    healthCalls st n = (List.replicate n ⟨200, healthPayload⟩, st) := by
  induction n with
  | zero => rfl
  | succ k ih => simp [healthCalls, healthHandler, ih, List.replicate_succ]

/-- C10: in the `part_000` variant, the `Percentage` value of a structured
form query has no effect on the response — two structured messages whose
parses agree on age and disability (differing only in the parsed
percentage) produce the same message and the same yojanas list, because the
handler passes only `\x7b age, disabilityType \x7d` to `filterYojanas`. -/
theorem part000_percentage_no_effect (ys : List Yojana) (m1 m2 : String)
    (a : Nat) (d : String) (p1 p2 : Nat)
    (h1 : part000ParseStructuredQuery m1 = some (a, d, p1))
    (h2 : part000ParseStructuredQuery m2 = some (a, d, p2)) :
    part000StructuredChat ys m1 = part000StructuredChat ys m2 := by
  simp only [part000StructuredChat, h1, h2]

/-- C10 (witness): two concrete form queries differing only in their
percentage figure get identical responses. -/
theorem part000_percentage_no_effect_witness :
    part000StructuredChat [sampleScheme]
        "Get Yojana for Age: 25, Disability: blind, Percentage: 40" =
      part000StructuredChat [sampleScheme]
        "Get Yojana for Age: 25, Disability: blind, Percentage: 90" :=
  part000_percentage_no_effect [sampleScheme] _ _ 25 "blind" 40 90 rfl rfl

end ChatBot

